import Mathlib

/-!
Shallow embedding of the MCP server foundation repository:
JSON-RPC message builders/validators (tests/utils.py), the configuration
validators (src/mcp_server/config.py), and the health/lifecycle manager
(src/mcp_server/health.py).
-/

/-- A JSON value, as passed around in the Python dictionaries of the source. -/
inductive JVal where
  | null
  | bool (b : Bool)
  | num (n : Int)
  | str (s : String)
  | arr (elems : List JVal)
  | obj (fields : List (String × JVal))

/-- A Python dict used as a JSON-RPC message: an insertion-ordered list of
string-keyed fields (keys are unique in all messages the source builds). -/
abbrev Msg := List (String × JVal)

/-- First-match association-list lookup, the embedding of `key in d` /
`d[key]` on a Python dict. -/
def lookupField : Msg → String → Option JVal
  | [], _ => none
  | (k, v) :: rest, key => if k == key then some v else lookupField rest key

/-- Embedding of `key in message`. -/
def hasField (m : Msg) (key : String) : Bool :=
  (lookupField m key).isSome

/-- Embedding of `isinstance(v, (dict, list))`. -/
def isObjOrArr : JVal → Bool
  | .obj _ => true
  | .arr _ => true
  | _ => false

/-- Deployment mode enumeration (config.py `DeploymentMode`). -/
inductive DeploymentMode where
  | development
  | uvx
  | docker
  | production
deriving DecidableEq

/-- Embedding of `mode in (DeploymentMode.DEVELOPMENT, DeploymentMode.UVX)`,
the test used by every mode-dependent validator and by `is_development`. -/
def mode_is_dev (mode : DeploymentMode) : Bool :=
  mode == .development || mode == .uvx

/-- Embedding of Python `v.startswith(p)`, by character-list comparison. -/
def str_startswith (v p : String) : Bool :=
  v.data.take p.data.length == p.data

/-- config.py `validate_database_url`: in development/uvx mode a URL that does
not start with "sqlite" is replaced by the local SQLite default; otherwise the
value is returned unchanged. -/
def validate_database_url (mode : DeploymentMode) (v : String) : String :=
  if mode_is_dev mode && !(str_startswith v "sqlite") then
    "sqlite:///./data/mcp.db"
  else
    v

/-- A Python value as it reaches the mode="before" field validators for the
boolean fields: `None`, a bool, a string (e.g. from an environment variable),
or an int. -/
inductive PyVal where
  | pynone
  | pybool (b : Bool)
  | pystr (s : String)
  | pyint (n : Int)
deriving DecidableEq

/-- Python truthiness `bool(v)` on the values of `PyVal`. -/
def py_truthy : PyVal → Bool
  | .pynone => false
  | .pybool b => b
  | .pystr s => !(s == "")
  | .pyint n => !(n == 0)

/-- Embedding of `v is None or v == ""` (in Python only the empty string
compares equal to `""`). -/
def py_unset (v : PyVal) : Bool :=
  v == .pynone || v == .pystr ""

/-- config.py `validate_debug`: derive from deployment mode when the value is
unset/empty, else Python-truthiness of the supplied value. -/
def validate_debug (mode : DeploymentMode) (v : PyVal) : Bool :=
  if py_unset v then mode_is_dev mode else py_truthy v

/-- config.py `validate_reload`: same rule as `validate_debug`. -/
def validate_reload (mode : DeploymentMode) (v : PyVal) : Bool :=
  if py_unset v then mode_is_dev mode else py_truthy v

/-- config.py `validate_file_watcher`: same rule as `validate_debug`. -/
def validate_file_watcher (mode : DeploymentMode) (v : PyVal) : Bool :=
  if py_unset v then mode_is_dev mode else py_truthy v

/-! ## JSON-RPC message builders (tests/utils.py `MCPMessageBuilder`) -/

/-- `MCPMessageBuilder.create_request`: builds `{jsonrpc, method, id}` plus
`params` when supplied.  `generated_id` stands for the `str(uuid4())` value
used when `request_id` is `None`. -/
def create_request (method : String) (params : Option JVal)
    (request_id : Option JVal) (generated_id : String) : Msg :=
  [("jsonrpc", JVal.str "2.0"),
   ("method", JVal.str method),
   ("id", request_id.getD (JVal.str generated_id))] ++
  (match params with
   | none => []
   | some p => [("params", p)])

/-- `MCPMessageBuilder.create_response`: success response envelope. -/
def create_response (result : JVal) (request_id : JVal) : Msg :=
  [("jsonrpc", JVal.str "2.0"),
   ("result", result),
   ("id", request_id)]

/-- The error object built by `create_error_response`: `{code, message}` plus
`data` when `error_data is not None`. -/
def error_object (error_code : Int) (error_message : String)
    (error_data : Option JVal) : List (String × JVal) :=
  [("code", JVal.num error_code),
   ("message", JVal.str error_message)] ++
  (match error_data with
   | none => []
   | some d => [("data", d)])

/-- `MCPMessageBuilder.create_error_response`: error response envelope; the
`id` field is always present, `JVal.null` when `request_id` is `None`. -/
def create_error_response (error_code : Int) (error_message : String)
    (request_id : Option JVal) (error_data : Option JVal) : Msg :=
  [("jsonrpc", JVal.str "2.0"),
   ("error", JVal.obj (error_object error_code error_message error_data)),
   ("id", request_id.getD JVal.null)]

/-- `MCPMessageBuilder.create_notification`: `{jsonrpc, method}` plus `params`
when supplied; never an `id` field. -/
def create_notification (method : String) (params : Option JVal) : Msg :=
  [("jsonrpc", JVal.str "2.0"),
   ("method", JVal.str method)] ++
  (match params with
   | none => []
   | some p => [("params", p)])

/-! ## JSON-RPC validators (tests/utils.py `MCPAssertions`)

Each Python assertion helper raises on the first failed `assert`; the run
succeeds iff every asserted condition holds, so each is embedded as the
conjunction of its asserted conditions. -/

/-- `message["jsonrpc"] == "2.0"` (with `"jsonrpc" in message`). -/
def jsonrpc_field_ok (m : Msg) : Bool :=
  match lookupField m "jsonrpc" with
  | some (.str s) => s == "2.0"
  | _ => false

/-- `"method" in message and isinstance(message["method"], str)`. -/
def method_field_is_str (m : Msg) : Bool :=
  match lookupField m "method" with
  | some (.str _) => true
  | _ => false

/-- `"params" not in message or isinstance(message["params"], (dict, list))`. -/
def params_field_ok (m : Msg) : Bool :=
  match lookupField m "params" with
  | none => true
  | some p => isObjOrArr p

/-- `MCPAssertions.assert_valid_jsonrpc_request` as a predicate: true iff the
assertion helper succeeds on `m`. -/
def assert_valid_jsonrpc_request (m : Msg) : Bool :=
  jsonrpc_field_ok m &&
  method_field_is_str m &&
  hasField m "id" &&
  params_field_ok m

/-- The `error` checks of `assert_valid_jsonrpc_response`: `error` is a dict
with an int `code` and a str `message` (a Python bool is an instance of int,
hence the `.bool` case). -/
def error_field_ok (m : Msg) : Bool :=
  match lookupField m "error" with
  | some (.obj e) =>
      (match lookupField e "code" with
       | some (.num _) => true
       | some (.bool _) => true
       | _ => false) &&
      (match lookupField e "message" with
       | some (.str _) => true
       | _ => false)
  | _ => false

/-- `MCPAssertions.assert_valid_jsonrpc_response` as a predicate: true iff the
assertion helper succeeds on `m`. -/
def assert_valid_jsonrpc_response (m : Msg) : Bool :=
  jsonrpc_field_ok m &&
  hasField m "id" &&
  (hasField m "result" || hasField m "error") &&
  !(hasField m "result" && hasField m "error") &&
  (if hasField m "error" then error_field_ok m else true)

/-- `MCPAssertions.assert_valid_jsonrpc_notification` as a predicate: true iff
the assertion helper succeeds on `m`. -/
def assert_valid_jsonrpc_notification (m : Msg) : Bool :=
  jsonrpc_field_ok m &&
  method_field_is_str m &&
  !(hasField m "id") &&
  params_field_ok m


/-! ## Health/Lifecycle manager (src/mcp_server/health.py) -/

/-- The configuration fields the health manager reads. -/
structure MCPServerConfig where
  deployment_mode : DeploymentMode
deriving DecidableEq

/-- config.py `is_development` property. -/
def is_development (cfg : MCPServerConfig) : Bool :=
  mode_is_dev cfg.deployment_mode

/-- The mutable state of `HealthCheckManager`, plus two observation fields
recording the side effects of `_handle_shutdown` (how many `_cleanup` tasks
were started, whether `sys.exit(0)` was invoked). -/
structure HealthState where
  is_shutting_down : Bool
  is_ready : Bool
  cleanup_tasks_started : Nat
  exit_called : Bool
deriving DecidableEq

/-- The state right after `HealthCheckManager.__init__`. -/
def initial_health_state : HealthState :=
  { is_shutting_down := false
    is_ready := false
    cleanup_tasks_started := 0
    exit_called := false }

/-- health.py `_handle_shutdown`: if not already shutting down, set the flag,
start one `_cleanup` task and call `sys.exit(0)`; otherwise do nothing. -/
def handle_shutdown (s : HealthState) : HealthState :=
  if !s.is_shutting_down then
    { s with
      is_shutting_down := true
      cleanup_tasks_started := s.cleanup_tasks_started + 1
      exit_called := true }
  else
    s

/-- health.py `_mark_ready`: after the 2-second startup grace period,
`is_ready` becomes true. -/
def mark_ready (s : HealthState) : HealthState :=
  { s with is_ready := true }

/-- health.py `_check_database`: development mode short-circuits to true; the
production branch is a placeholder that also returns true. -/
def check_database (cfg : MCPServerConfig) : Bool :=
  if is_development cfg then true else true

/-- health.py `_check_cache`: same shape as `check_database`. -/
def check_cache (cfg : MCPServerConfig) : Bool :=
  if is_development cfg then true else true

/-- The `checks` dict of `readiness_check`. -/
structure ReadinessChecks where
  server : Bool
  database : Bool
  cache : Bool
deriving DecidableEq

/-- The result of `readiness_check` (without the timestamp). -/
structure ReadinessResult where
  ready : Bool
  checks : ReadinessChecks
deriving DecidableEq

/-- health.py `readiness_check`: `server` is `is_ready and not
is_shutting_down`, and `ready` is `all(checks.values())`. -/
def readiness_check (s : HealthState) (cfg : MCPServerConfig) : ReadinessResult :=
  let checks : ReadinessChecks :=
    { server := s.is_ready && !s.is_shutting_down
      database := check_database cfg
      cache := check_cache cfg }
  { ready := checks.server && checks.database && checks.cache
    checks := checks }

/-! ## Tool/resource dispatch layer -/

/-- A handler: takes the request params and either returns a result value or
raises a fault described by a string. -/
abbrev Handler := JVal → Except String JVal

/-- Association-list lookup in the handler registry. -/
def lookupHandler : List (String × Handler) → String → Option Handler
  | [], _ => none
  | (k, h) :: rest, key => if k == key then some h else lookupHandler rest key

/-- A decoded JSON-RPC request as seen by dispatch. -/
structure RpcRequest where
  method : String
  params : Option JVal
  id : JVal

/-- Modelled from the spec: the dispatch layer (spec 4.3) is implemented by
the external MCP framework, not by code under src/; only its error-envelope
shape is exercised by tests/test_integration.py `test_error_response_creation`.
Per the spec: look up `request.method` in the registry; on miss return an
error response with code -32601 ("Method not found") carrying the attempted
method name as error `data`; on hit invoke the handler with `request.params`
(or the empty object), translating a handler fault to -32603 and a success
into a result response correlated by the request id. -/
def dispatch (registry : List (String × Handler)) (req : RpcRequest) : Msg :=
  match lookupHandler registry req.method with
  | none =>
      create_error_response (-32601) "Method not found" (some req.id)
        (some (JVal.obj [("method", JVal.str req.method)]))
  | some h =>
      match h (req.params.getD (JVal.obj [])) with
      | .ok r => create_response r req.id
      | .error e =>
          create_error_response (-32603) "Internal error" (some req.id)
            (some (JVal.str e))

/-! ## Theorems -/

/-- Claim C1: in development/uvx mode the resolved database URL is always a
local/embedded (sqlite) form — in particular development mode with
"postgresql://x" yields the local default — while in docker/production mode
the caller-supplied URL is preserved verbatim. -/
theorem c1_database_url_mode_invariant (mode : DeploymentMode) (v : String) :
    ((mode = .development ∨ mode = .uvx) →
       str_startswith (validate_database_url mode v) "sqlite" = true) ∧
    (validate_database_url .development "postgresql://x" =
       "sqlite:///./data/mcp.db") ∧
    ((mode = .docker ∨ mode = .production) →
       validate_database_url mode v = v) := by
  refine ⟨?_, by decide, ?_⟩
  · intro h
    unfold validate_database_url
    by_cases hs : str_startswith v "sqlite"
    · simp [hs]
    · rcases h with rfl | rfl <;> simp [mode_is_dev, hs] <;> decide
  · intro h
    unfold validate_database_url
    rcases h with rfl | rfl <;> simp [mode_is_dev]

/-- Witness for C1 at a concrete mode and URL. -/
theorem c1_database_url_mode_invariant_witness :
    str_startswith (validate_database_url .uvx "postgresql://remote/db")
        "sqlite" = true ∧
    validate_database_url .docker "postgresql://remote/db"
        = "postgresql://remote/db" :=
  ⟨(c1_database_url_mode_invariant .uvx "postgresql://remote/db").1
      (Or.inr rfl),
   (c1_database_url_mode_invariant .docker "postgresql://remote/db").2.2
      (Or.inl rfl)⟩

/-- Claim C3: the fields debug, reload and use_file_watcher each derive to
true when unset/empty (Python `None` or `""`) in development/uvx mode, derive
to false when unset/empty in docker/production mode, and an explicitly
supplied boolean value is always kept as-is. -/
theorem c3_derived_flag_defaults (mode : DeploymentMode) :
    ((mode = .development ∨ mode = .uvx) →
       validate_debug mode .pynone = true ∧
       validate_debug mode (.pystr "") = true ∧
       validate_reload mode .pynone = true ∧
       validate_reload mode (.pystr "") = true ∧
       validate_file_watcher mode .pynone = true ∧
       validate_file_watcher mode (.pystr "") = true) ∧
    ((mode = .docker ∨ mode = .production) →
       validate_debug mode .pynone = false ∧
       validate_debug mode (.pystr "") = false ∧
       validate_reload mode .pynone = false ∧
       validate_reload mode (.pystr "") = false ∧
       validate_file_watcher mode .pynone = false ∧
       validate_file_watcher mode (.pystr "") = false) ∧
    (∀ b : Bool,
       validate_debug mode (.pybool b) = b ∧
       validate_reload mode (.pybool b) = b ∧
       validate_file_watcher mode (.pybool b) = b) := by
  cases mode <;>
    exact ⟨fun h => by first | decide | exact absurd h (by decide),
           fun h => by first | decide | exact absurd h (by decide),
           fun b => by cases b <;> decide⟩

/-- Witness for C3 at concrete modes and values. -/
theorem c3_derived_flag_defaults_witness :
    validate_debug .development .pynone = true ∧
    validate_debug .production .pynone = false ∧
    validate_reload .production (.pybool true) = true :=
  ⟨((c3_derived_flag_defaults .development).1 (Or.inl rfl)).1,
   ((c3_derived_flag_defaults .production).2.1 (Or.inr rfl)).1,
   ((c3_derived_flag_defaults .production).2.2 true).2.1⟩

/-- Claim C7: the shutdown transition is idempotent — applying
`_handle_shutdown` twice yields the same state as applying it once, and a
signal arriving while `is_shutting_down` is already true leaves the state
unchanged (no second cleanup task, no second exit). -/
theorem c7_shutdown_idempotent (s : HealthState) :
    handle_shutdown (handle_shutdown s) = handle_shutdown s ∧
    (s.is_shutting_down = true → handle_shutdown s = s) := by
  constructor
  · unfold handle_shutdown
    by_cases h : s.is_shutting_down <;> simp [h]
  · intro h
    unfold handle_shutdown
    simp [h]

/-- Witness for C7 at concrete states. -/
theorem c7_shutdown_idempotent_witness :
    handle_shutdown (handle_shutdown initial_health_state)
        = handle_shutdown initial_health_state ∧
    handle_shutdown { initial_health_state with is_shutting_down := true }
        = { initial_health_state with is_shutting_down := true } :=
  ⟨(c7_shutdown_idempotent initial_health_state).1,
   (c7_shutdown_idempotent
      { initial_health_state with is_shutting_down := true }).2 rfl⟩

/-- Claim C10: `create_error_response` always emits an `id` field — the
supplied request id, or null when none was supplied — and its error object
carries a `data` field exactly when `error_data` was supplied. -/
theorem c10_error_response_id_and_data (error_code : Int)
    (error_message : String) (request_id : Option JVal)
    (error_data : Option JVal) :
    lookupField
        (create_error_response error_code error_message request_id error_data)
        "id" = some (request_id.getD JVal.null) ∧
    lookupField
        (create_error_response error_code error_message request_id error_data)
        "error"
      = some (JVal.obj (error_object error_code error_message error_data)) ∧
    hasField (error_object error_code error_message error_data) "data"
      = error_data.isSome := by
  cases error_data <;> exact ⟨rfl, rfl, rfl⟩

/-! ## Characterization lemmas for the validators -/

/-- The jsonrpc check holds exactly when the field is the string "2.0". -/
theorem jsonrpc_field_ok_iff (m : Msg) :
    jsonrpc_field_ok m = true ↔
      lookupField m "jsonrpc" = some (JVal.str "2.0") := by
  unfold jsonrpc_field_ok
  cases h : lookupField m "jsonrpc" with
  | none => simp
  | some v => cases v <;> simp

/-- The method check holds exactly when the field is present and a string. -/
theorem method_field_is_str_iff (m : Msg) :
    method_field_is_str m = true ↔
      ∃ s, lookupField m "method" = some (JVal.str s) := by
  unfold method_field_is_str
  cases h : lookupField m "method" with
  | none => simp
  | some v => cases v <;> simp

/-- Field presence holds exactly when the lookup returns a value. -/
theorem hasField_iff (m : Msg) (key : String) :
    hasField m key = true ↔ ∃ v, lookupField m key = some v := by
  simp [hasField, Option.isSome_iff_exists]

/-- The params check holds exactly when any present params value is an object
or a sequence. -/
theorem params_field_ok_iff (m : Msg) :
    params_field_ok m = true ↔
      ∀ p, lookupField m "params" = some p → isObjOrArr p = true := by
  unfold params_field_ok
  cases h : lookupField m "params" with
  | none => simp
  | some v => simp

/-- The validity condition for requests exactly as the claim words it:
jsonrpc is "2.0", method is a NON-EMPTY string, and "id" is present (no
condition on params). -/
def claimed_request_condition (m : Msg) : Bool :=
  jsonrpc_field_ok m &&
  (match lookupField m "method" with
   | some (.str s) => !(s == "")
   | _ => false) &&
  hasField m "id"

/-- A request with an empty-string method and no params. -/
def empty_method_request : Msg :=
  [("jsonrpc", JVal.str "2.0"),
   ("method", JVal.str ""),
   ("id", JVal.num 1)]

/-- Claim C2, counterexample: `assert_valid_jsonrpc_request` accepts a message
whose method is the empty string, so acceptance is not equivalent to the
claimed condition (which demands a non-empty method). -/
theorem c2_empty_method_counterexample :
    ¬(assert_valid_jsonrpc_request empty_method_request = true ↔
      claimed_request_condition empty_method_request = true) := by
  decide

/-- Claim C2 as amended: request validation succeeds iff jsonrpc is the string
"2.0", method is present and a string (possibly empty), "id" is present, and
params — when present — is an object or a sequence. -/
theorem c2_request_validation_characterization (m : Msg) :
    assert_valid_jsonrpc_request m = true ↔
      (lookupField m "jsonrpc" = some (JVal.str "2.0") ∧
       (∃ s, lookupField m "method" = some (JVal.str s)) ∧
       (∃ i, lookupField m "id" = some i) ∧
       (∀ p, lookupField m "params" = some p → isObjOrArr p = true)) := by
  simp only [assert_valid_jsonrpc_request, Bool.and_eq_true,
    jsonrpc_field_ok_iff, method_field_is_str_iff, hasField_iff,
    params_field_ok_iff]
  tauto

/-- Witness for C2's amended theorem at a concrete request. -/
theorem c2_request_validation_characterization_witness :
    assert_valid_jsonrpc_request
      (create_request "tools/list" none (some (JVal.str "abc")) "gen-id")
      = true :=
  (c2_request_validation_characterization _).mpr
    ⟨rfl, ⟨"tools/list", rfl⟩, ⟨JVal.str "abc", rfl⟩,
     fun _ hp => nomatch hp⟩

/-- Claim C4: a message accepted by response validation has exactly one of
"result"/"error", and a message with both, or with neither, is rejected. -/
theorem c4_response_result_xor_error :
    (∀ m, assert_valid_jsonrpc_response m = true →
       hasField m "result" ≠ hasField m "error") ∧
    (∀ m, hasField m "result" = true → hasField m "error" = true →
       assert_valid_jsonrpc_response m = false) ∧
    (∀ m, hasField m "result" = false → hasField m "error" = false →
       assert_valid_jsonrpc_response m = false) := by
  refine ⟨?_, ?_, ?_⟩
  · intro m h
    simp only [assert_valid_jsonrpc_response, Bool.and_eq_true] at h
    obtain ⟨⟨⟨⟨-, -⟩, h3⟩, h4⟩, -⟩ := h
    revert h3 h4
    cases hres : hasField m "result" <;> cases herr : hasField m "error" <;>
      simp_all
  · intro m h1 h2
    simp [assert_valid_jsonrpc_response, h1, h2]
  · intro m h1 h2
    simp [assert_valid_jsonrpc_response, h1, h2]

/-- Witness for C4 at a concrete valid response and concrete invalid ones. -/
theorem c4_response_result_xor_error_witness :
    hasField (create_response (JVal.str "ok") (JVal.num 1)) "result"
      ≠ hasField (create_response (JVal.str "ok") (JVal.num 1)) "error" ∧
    assert_valid_jsonrpc_response
      [("jsonrpc", JVal.str "2.0"), ("result", JVal.str "ok"),
       ("error", JVal.obj (error_object 1 "e" none)), ("id", JVal.num 1)]
      = false ∧
    assert_valid_jsonrpc_response
      [("jsonrpc", JVal.str "2.0"), ("id", JVal.num 1)] = false :=
  ⟨c4_response_result_xor_error.1 _ rfl,
   c4_response_result_xor_error.2.1 _ rfl rfl,
   c4_response_result_xor_error.2.2 _ rfl rfl⟩

/-- Claim C5: any message accepted by notification validation has no "id"
field, and prepending an "id" field to any message makes notification
validation fail. -/
theorem c5_notification_id_absent :
    (∀ m, assert_valid_jsonrpc_notification m = true →
       lookupField m "id" = none) ∧
    (∀ (m : Msg) (v : JVal),
       assert_valid_jsonrpc_notification (("id", v) :: m) = false) := by
  constructor
  · intro m h
    simp only [assert_valid_jsonrpc_notification, Bool.and_eq_true] at h
    obtain ⟨⟨⟨-, -⟩, h3⟩, -⟩ := h
    cases hl : lookupField m "id" with
    | none => rfl
    | some v =>
        rw [hasField, hl] at h3
        simp at h3
  · intro m v
    have hid : hasField (("id", v) :: m) "id" = true := rfl
    simp [assert_valid_jsonrpc_notification, hid]

/-- Witness for C5 at a concrete notification. -/
theorem c5_notification_id_absent_witness :
    lookupField (create_notification "ping" none) "id" = none ∧
    assert_valid_jsonrpc_notification
      (("id", JVal.num 7) :: create_notification "ping" none) = false :=
  ⟨c5_notification_id_absent.1 _ rfl,
   c5_notification_id_absent.2 _ _⟩

/-- Claim C6, round-trip: for any non-empty method, any object-or-sequence
params (or none), and any id (supplied or generated), the message built by
`create_request` passes request validation. -/
theorem c6_create_request_roundtrip (method : String) (params : Option JVal)
    (request_id : Option JVal) (generated_id : String)
    (_hm : method ≠ "")
    (hp : ∀ q, params = some q → isObjOrArr q = true) :
    assert_valid_jsonrpc_request
      (create_request method params request_id generated_id) = true := by
  cases params with
  | none => cases request_id <;> rfl
  | some q =>
      have hq := hp q rfl
      have hred : assert_valid_jsonrpc_request
          (create_request method (some q) request_id generated_id)
            = isObjOrArr q := by
        cases request_id <;> rfl
      rw [hred, hq]

/-- Witness for C6 at a concrete method, params and id. -/
theorem c6_create_request_roundtrip_witness :
    assert_valid_jsonrpc_request
      (create_request "tools/call" (some (JVal.obj [("name", JVal.str "echo_message")]))
        (some (JVal.num 5)) "generated-uuid") = true :=
  c6_create_request_roundtrip "tools/call"
    (some (JVal.obj [("name", JVal.str "echo_message")]))
    (some (JVal.num 5)) "generated-uuid" (by decide)
    (fun q hq => by cases hq; rfl)

/-- Claim C8: `readiness_check` reports ready exactly when the server check
and both dependency checks pass; dependency checks are true in
development/uvx mode; before the grace period (`is_ready` still false) the
server check and `ready` are false, and once ready and not shutting down,
`ready` is true. -/
theorem c8_readiness_iff_checks (s : HealthState) (cfg : MCPServerConfig) :
    ((readiness_check s cfg).ready =
       ((readiness_check s cfg).checks.server &&
        (readiness_check s cfg).checks.database &&
        (readiness_check s cfg).checks.cache)) ∧
    (is_development cfg = true →
       check_database cfg = true ∧ check_cache cfg = true) ∧
    (s.is_ready = false →
       (readiness_check s cfg).checks.server = false ∧
       (readiness_check s cfg).ready = false) ∧
    (s.is_ready = true → s.is_shutting_down = false →
       (readiness_check s cfg).ready = true) := by
  refine ⟨rfl, fun _ => ⟨?_, ?_⟩, fun h => ?_, fun h1 h2 => ?_⟩
  · simp [check_database]
  · simp [check_cache]
  · constructor <;> simp [readiness_check, h]
  · simp [readiness_check, check_database, check_cache, h1, h2]

/-- Witness for C8: before the grace period readiness is false; after
`mark_ready` (and with no shutdown) it is true. -/
theorem c8_readiness_iff_checks_witness :
    (readiness_check initial_health_state
       { deployment_mode := .development }).checks.server = false ∧
    (readiness_check initial_health_state
       { deployment_mode := .development }).ready = false ∧
    (readiness_check (mark_ready initial_health_state)
       { deployment_mode := .development }).ready = true ∧
    check_database { deployment_mode := .development } = true :=
  ⟨((c8_readiness_iff_checks initial_health_state
       { deployment_mode := .development }).2.2.1 rfl).1,
   ((c8_readiness_iff_checks initial_health_state
       { deployment_mode := .development }).2.2.1 rfl).2,
   (c8_readiness_iff_checks (mark_ready initial_health_state)
       { deployment_mode := .development }).2.2.2 rfl rfl,
   ((c8_readiness_iff_checks initial_health_state
       { deployment_mode := .development }).2.1 rfl).1⟩

/-- Claim C9: dispatching a request whose method is not in the registry
returns the -32601 "Method not found" error response, whose error data
carries the attempted method name. -/
theorem c9_dispatch_unknown_method (registry : List (String × Handler))
    (req : RpcRequest)
    (h : lookupHandler registry req.method = none) :
    dispatch registry req =
      create_error_response (-32601) "Method not found" (some req.id)
        (some (JVal.obj [("method", JVal.str req.method)])) ∧
    ∃ e, lookupField (dispatch registry req) "error" = some (JVal.obj e) ∧
      lookupField e "code" = some (JVal.num (-32601)) ∧
      lookupField e "data"
        = some (JVal.obj [("method", JVal.str req.method)]) := by
  unfold dispatch
  rw [h]
  exact ⟨rfl,
    error_object (-32601) "Method not found"
      (some (JVal.obj [("method", JVal.str req.method)])),
    rfl, rfl, rfl⟩

/-- Witness for C9 with an empty registry and the method name the integration
test uses. -/
theorem c9_dispatch_unknown_method_witness :
    ∃ e, lookupField
        (dispatch [] ⟨"unknown_method", none, JVal.str "error-test-123"⟩)
        "error" = some (JVal.obj e) ∧
      lookupField e "code" = some (JVal.num (-32601)) ∧
      lookupField e "data"
        = some (JVal.obj [("method", JVal.str "unknown_method")]) :=
  (c9_dispatch_unknown_method []
    ⟨"unknown_method", none, JVal.str "error-test-123"⟩ rfl).2
